import Mathlib

/-!
Verification of the `patch-client` Rust HTTP client core
(`src/clients/rust/src/client.rs`, `model.rs`, `error.rs`).

The development shallowly embeds the request-execution engine:

* the path builder `Client::url` / `Client::encode_path_segment`
  (paths are modelled as `List Char`; percent-decoding follows
  `percent_encoding::percent_decode_str`, which works byte-wise — on the
  predicates checked here (equality with `"."`/`".."`, containment of a
  slash or backslash) the character-level model agrees with the byte-level
  computation, because those are all single-byte ASCII code points that
  UTF-8 maps to themselves and lossy decoding maps to themselves);
* the auth store, refresh protocol and single-retry executor, as explicit
  state passing over a queue of pending HTTP responses (the transport is
  an oracle handing out responses in order, as in the repository's own
  mock-server tests); each HTTP send and each refresh attempt is recorded
  in an event trace;
* the error classifier `Client::api_error` (response bodies are modelled
  as `Option Json` — `some j` for a body whose text parses as the JSON
  document `j`, `none` for a body that is not JSON);
* the response decoder for `MetricsBody` with its `(unit, interval)` tag
  dispatch, over an explicit JSON value type (numbers as `ℚ`; the claims
  checked here only test field presence and shape, never float
  arithmetic);
* the bounded body reader `Client::read_body_limited` over byte chunks.
-/

namespace PatchClient

/-! ### Percent decoding and path segmentation (client.rs lines 126-140) -/

def isHexDigit (c : Char) : Bool :=
  ('0' ≤ c && c ≤ '9') || ('a' ≤ c && c ≤ 'f') || ('A' ≤ c && c ≤ 'F')

def hexVal (c : Char) : Nat :=
  if '0' ≤ c && c ≤ '9' then c.toNat - 48
  else if 'a' ≤ c && c ≤ 'f' then c.toNat - 87
  else if 'A' ≤ c && c ≤ 'F' then c.toNat - 55
  else 0

/-- One pass of percent-decoding, as `percent_decode_str(..).decode_utf8_lossy()`:
a `%` followed by two hex digits (either case) becomes the decoded byte, any
other `%` is kept literally; decoding never fails. -/
def percent_decode : List Char → List Char
  | '%' :: h1 :: h2 :: rest =>
    if isHexDigit h1 && isHexDigit h2 then
      Char.ofNat (16 * hexVal h1 + hexVal h2) :: percent_decode rest
    else
      '%' :: percent_decode (h1 :: h2 :: rest)
  | c :: rest => c :: percent_decode rest
  | [] => []

/-- `str::split('/')`: always at least one (possibly empty) segment. -/
def split_on_slash : List Char → List (List Char)
  | [] => [[]]
  | c :: rest =>
    if c = '/' then [] :: split_on_slash rest
    else
      match split_on_slash rest with
      | s :: ss => (c :: s) :: ss
      | [] => [[c]]

/-- `str::trim_start_matches('/')`. -/
def trim_leading_slashes : List Char → List Char
  | [] => []
  | c :: rest => if c = '/' then trim_leading_slashes rest else c :: rest

def starts_with_two_slashes : List Char → Bool
  | '/' :: '/' :: _ => true
  | _ => false

/-- `str::contains("://")`. -/
def has_scheme_sep : List Char → Bool
  | [] => false
  | c :: rest => (decide (c = ':') && starts_with_two_slashes rest) || has_scheme_sep rest

/-- The per-segment rejection test of `Client::url`: the decoded segment equals
`"."` or `".."`, or contains an embedded forward or backward slash. -/
def bad_segment (seg : List Char) : Bool :=
  let decoded := percent_decode seg
  decide (decoded = ['.']) || decide (decoded = ['.', '.'])
    || decoded.contains '/' || decoded.contains '\\'

/-! ### Segment encoding (client.rs lines 60-70) -/

/-- UTF-8 bytes of one scalar value (`str::as_bytes` is the concatenation of
these over the characters). -/
def utf8_bytes (c : Char) : List Nat :=
  let n := c.toNat
  if n < 0x80 then [n]
  else if n < 0x800 then [0xC0 + n / 64, 0x80 + n % 64]
  else if n < 0x10000 then [0xE0 + n / 4096, 0x80 + (n / 64) % 64, 0x80 + n % 64]
  else [0xF0 + n / 262144, 0x80 + (n / 4096) % 64, 0x80 + (n / 64) % 64, 0x80 + n % 64]

/-- Upper-case hex digit, as `percent_encoding::percent_encode_byte` uses. -/
def hex_upper (n : Nat) : Char :=
  if n < 10 then Char.ofNat (48 + n) else Char.ofNat (55 + n)

def is_unreserved_byte (b : Nat) : Bool :=
  (48 ≤ b && b ≤ 57) || (65 ≤ b && b ≤ 90) || (97 ≤ b && b ≤ 122)
    || b == 45 || b == 95 || b == 126

/-- `Client::encode_path_segment`: every byte that is not ASCII alphanumeric
or one of `-`, `_`, `~` becomes `%XX` with upper-case hex. -/
def encode_path_segment (s : List Char) : List Char :=
  ((s.map utf8_bytes).flatten.map fun b =>
    if is_unreserved_byte b then [Char.ofNat b]
    else ['%', hex_upper (b / 16), hex_upper (b % 16)]).flatten

/-- Join segments with `/` (used to state what "embedded as a single segment"
means for a path built from segments). -/
def intercalate_slash : List (List Char) → List Char
  | [] => []
  | [s] => s
  | s :: rest => s ++ '/' :: intercalate_slash rest

/-! ### The `url` crate's join (dependency of `Client::url`)

`Client::url` ends with `self.base_url.join(path)?`.  `Url::join` implements
the WHATWG URL parsing algorithm with the base URL as context; it is a
dependency of the repository, modelled here for the inputs that survive the
earlier checks (no `"://"`, no leading `/` after trimming).  The branches
relevant to those inputs: a path with no scheme prefix, or with the base's
own scheme, resolves relative to the base and always succeeds; a path with a
*different special* scheme prefix (`http:`, `ws:` …) switches the parser into
authority parsing of whatever follows, which fails on an empty or invalid
host; a non-special scheme prefix yields an opaque-path URL. -/

inductive UrlParseError where
  | emptyHost
  | invalidIpv6Address
  | invalidPort
  | invalidDomainCharacter
  deriving DecidableEq

/-- The parts of an absolute URL this model tracks. -/
structure UrlModel where
  scheme : String
  host : String
  port : Option Nat
  path : List Char
  deriving DecidableEq

def special_schemes : List String := ["ftp", "file", "http", "https", "ws", "wss"]

def is_scheme_rest_char (c : Char) : Bool :=
  c.isAlphanum || c = '+' || c = '-' || c = '.'

def find_scheme_go (acc : List Char) : List Char → Option (List Char × List Char)
  | [] => none
  | c :: rest =>
    if c = ':' then some (acc.reverse, rest)
    else if is_scheme_rest_char c then find_scheme_go (c :: acc) rest
    else none

/-- Split a leading `scheme:` prefix (first char ASCII alpha, rest
alphanumeric or `+`/`-`/`.`) from the input, if present. -/
def find_scheme : List Char → Option (List Char × List Char)
  | [] => none
  | c :: rest => if c.isAlpha then find_scheme_go [c] rest else none

def is_ipv6_char (c : Char) : Bool := isHexDigit c || c = ':' || c = '.'

/-- Coarse validity test for the inside of a `[...]` host: hex groups,
colons and dots only, at least one colon, length bounds.  (No theorem in
this file depends on acceptance of a particular IPv6 literal; what matters
is that a malformed bracket host is an error.) -/
def plausible_ipv6 (inner : List Char) : Bool :=
  inner.all is_ipv6_char && inner.contains ':' && decide (inner.length ≤ 45)
    && !(inner.contains ':' && inner.length == 0)

def forbidden_host_char (c : Char) : Bool :=
  c = '\x00' || c = '\t' || c = '\n' || c = '\r' || c = ' ' || c = '#'
    || c = '/' || c = ':' || c = '<' || c = '>' || c = '?' || c = '@'
    || c = '[' || c = '\\' || c = ']' || c = '^' || c = '|'

def parse_port (cs : List Char) : Except UrlParseError (Option Nat) :=
  if cs = [] then .ok none
  else if cs.all (fun c => c.isDigit) then
    let n := cs.foldl (fun a c => 10 * a + (c.toNat - 48)) 0
    if n < 65536 then .ok (some n) else .error .invalidPort
  else .error .invalidPort

/-- Parse the host (and optional port) of an authority whose userinfo has
already been stripped.  An empty host is a failure for special schemes. -/
def parse_host_port (cs : List Char) : Except UrlParseError (String × Option Nat) :=
  match cs with
  | [] => .error .emptyHost
  | '[' :: rest =>
    match rest.splitOn ']' with
    | [inner, portPart] =>
      if plausible_ipv6 inner then
        match portPart with
        | [] => .ok (⟨'[' :: inner ++ [']']⟩, none)
        | ':' :: p =>
          (parse_port p).map fun pn => (⟨'[' :: inner ++ [']']⟩, pn)
        | _ => .error .invalidPort
      else .error .invalidIpv6Address
    | _ => .error .invalidIpv6Address
  | _ =>
    let hostPart := cs.takeWhile (fun c => c ≠ ':')
    let portPart := cs.dropWhile (fun c => c ≠ ':')
    if hostPart = [] then .error .emptyHost
    else if hostPart.any forbidden_host_char then .error .invalidDomainCharacter
    else
      match portPart with
      | [] => .ok (⟨hostPart⟩, none)
      | _ :: p => (parse_port p).map fun pn => (⟨hostPart⟩, pn)

def strip_userinfo (cs : List Char) : List Char :=
  if cs.contains '@' then ((cs.reverse.takeWhile (fun c => c ≠ '@')).reverse) else cs

/-- Resolve a relative-path reference against the base path (the base path
always ends in `/` after `normalize_base_url`, so the last segment popped by
the WHATWG algorithm is empty). -/
def merge_path (basePath p : List Char) : List Char :=
  (basePath.reverse.dropWhile (fun c => c ≠ '/')).reverse ++ p

/-- Model of `Url::join` for a relative input with no `"://"` and no leading
slash (the only inputs `Client::url` passes to it). -/
def url_join (base : UrlModel) (p : List Char) : Except UrlParseError UrlModel :=
  match find_scheme p with
  | none => .ok { base with path := merge_path base.path p }
  | some (sch, rest) =>
    let schS : String := ⟨sch.map Char.toLower⟩
    if schS = "file" then
      -- the file state never requires a host
      .ok { scheme := "file", host := "", port := none, path := rest }
    else if schS = base.scheme then
      -- "special relative or authority": no "//" follows, so relative state
      .ok { base with path := merge_path base.path rest }
    else if special_schemes.contains schS then
      -- special authority slashes / ignore slashes, then authority state
      let rest2 := rest.dropWhile (fun c => c = '/' || c = '\\')
      let auth := rest2.takeWhile (fun c => c ≠ '/' && c ≠ '?' && c ≠ '#')
      let tail := rest2.dropWhile (fun c => c ≠ '/' && c ≠ '?' && c ≠ '#')
      (parse_host_port (strip_userinfo auth)).map fun hp =>
        { scheme := schS, host := hp.1, port := hp.2, path := tail }
    else
      -- non-special scheme: opaque path, cannot fail
      .ok { scheme := schS, host := "", port := none, path := rest }

/-! ### JSON values (`serde_json::Value`) and the typed response bodies -/

inductive Json where
  | null
  | boolean (b : Bool)
  | num (q : ℚ)
  | str (s : String)
  | arr (xs : List Json)
  | obj (fields : List (String × Json))

/-- `Value::get(key)` (returns `None` on non-objects). -/
def Json.get : Json → String → Option Json
  | .obj fields, key => fields.lookup key
  | _, _ => none

/-- `Value::as_str`. -/
def Json.asStr : Json → Option String
  | .str s => some s
  | _ => none

/-! Field accessors mirroring how `serde` derives deserialize struct fields
from a JSON map: a missing required field is the error ``missing field
`name` ``; an `Option` field treats both absence and `null` as `None`;
a present field of the wrong type is a type error. -/

def req_string (v : Json) (name : String) : Except String String :=
  match v.get name with
  | some (.str s) => .ok s
  | some _ => .error ("invalid type for field `" ++ name ++ "`")
  | none => .error ("missing field `" ++ name ++ "`")

def opt_string (v : Json) (name : String) : Except String (Option String) :=
  match v.get name with
  | some (.str s) => .ok (some s)
  | some .null => .ok none
  | some _ => .error ("invalid type for field `" ++ name ++ "`")
  | none => .ok none

/-- An `f64` field: any JSON number. -/
def req_f64 (v : Json) (name : String) : Except String ℚ :=
  match v.get name with
  | some (.num q) => .ok q
  | some _ => .error ("invalid type for field `" ++ name ++ "`")
  | none => .error ("missing field `" ++ name ++ "`")

/-- An `i64` field: an integral JSON number in the `i64` range. -/
def req_i64 (v : Json) (name : String) : Except String Int :=
  match v.get name with
  | some (.num q) =>
    if q.den = 1 && -(2 ^ 63) ≤ q.num && q.num < 2 ^ 63 then .ok q.num
    else .error ("invalid type for field `" ++ name ++ "`")
  | some _ => .error ("invalid type for field `" ++ name ++ "`")
  | none => .error ("missing field `" ++ name ++ "`")

def opt_i64 (v : Json) (name : String) : Except String (Option Int) :=
  match v.get name with
  | some (.num q) =>
    if q.den = 1 && -(2 ^ 63) ≤ q.num && q.num < 2 ^ 63 then .ok (some q.num)
    else .error ("invalid type for field `" ++ name ++ "`")
  | some .null => .ok none
  | some _ => .error ("invalid type for field `" ++ name ++ "`")
  | none => .ok none

/-- An `Option<Value>` field (`null` becomes `None`, as serde's `Option`). -/
def opt_value (v : Json) (name : String) : Option Json :=
  match v.get name with
  | some .null => none
  | some j => some j
  | none => none

/-- An `Option<Vec<T>>` field. -/
def opt_vec {T : Type} (dec : Json → Except String T) (v : Json) (name : String) :
    Except String (Option (List T)) :=
  match v.get name with
  | some (.arr xs) => (xs.mapM dec).map some
  | some .null => .ok none
  | some _ => .error ("invalid type for field `" ++ name ++ "`")
  | none => .ok none

def require_object (v : Json) (structName : String) : Except String Unit :=
  match v with
  | .obj _ => .ok ()
  | _ => .error ("invalid type: expected struct " ++ structName)

/-! #### model.rs structs used by the engine -/

/-- model.rs `AuthBody` (token redacted in `Debug`, irrelevant here). -/
structure AuthBody where
  token : String
  name : String
  deriving DecidableEq

def authBodyFromJson (v : Json) : Except String AuthBody := do
  let _ ← require_object v "AuthBody"
  let token ← req_string v "token"
  let name ← req_string v "name"
  return { token, name }

/-- model.rs `OrgInfo`. -/
structure OrgInfo where
  id : String
  name : String
  icon : Option String
  logo : Option String
  owner : Option String
  deriving DecidableEq

def orgInfoFromJson (v : Json) : Except String OrgInfo := do
  let _ ← require_object v "OrgInfo"
  let id ← req_string v "id"
  let name ← req_string v "name"
  let icon ← opt_string v "icon"
  let logo ← opt_string v "logo"
  let owner ← opt_string v "owner"
  return { id, name, icon, logo, owner }

/-- model.rs `AuthOutputV3Body` (`type` is renamed to `account_type`). -/
structure AuthOutputV3Body where
  token : String
  account_type : String
  name : String
  email : Option String
  username : Option String
  organizations : Option (List OrgInfo)
  metadata : Option Json

def authOutputV3FromJson (v : Json) : Except String AuthOutputV3Body := do
  let _ ← require_object v "AuthOutputV3Body"
  let token ← req_string v "token"
  let account_type ← req_string v "type"
  let name ← req_string v "name"
  let email ← opt_string v "email"
  let username ← opt_string v "username"
  let organizations ← opt_vec orgInfoFromJson v "organizations"
  let metadata := opt_value v "metadata"
  return { token, account_type, name, email, username, organizations, metadata }

/-- model.rs `ErrorDetail`. -/
structure ErrorDetail where
  location : Option String
  message : Option String
  value : Option Json

def errorDetailFromJson (v : Json) : Except String ErrorDetail := do
  let _ ← require_object v "ErrorDetail"
  let location ← opt_string v "location"
  let message ← opt_string v "message"
  let value := opt_value v "value"
  return { location, message, value }

/-- model.rs `ErrorModel` (the problem document; every field optional,
`type` renamed to `error_type`, `instance` kept as `instance_` because
`instance` is reserved in Lean). -/
structure ErrorModel where
  title : Option String
  status : Option Int
  detail : Option String
  errors : Option (List ErrorDetail)
  instance_ : Option String
  error_type : Option String

/-- `serde_json::from_str::<ErrorModel>` on an already-parsed JSON document:
succeeds exactly on objects whose present fields have the right types. -/
def errorModelFromJson (v : Json) : Option ErrorModel :=
  match v with
  | .obj _ =>
    (do
      let title ← opt_string v "title"
      let status ← opt_i64 v "status"
      let detail ← opt_string v "detail"
      let errors ← opt_vec errorDetailFromJson v "errors"
      let instance_ ← opt_string v "instance"
      let error_type ← opt_string v "type"
      return ({ title, status, detail, errors, instance_, error_type } : ErrorModel)).toOption
  | _ => none

/-! #### Metrics payload shapes (model.rs lines 402-527) -/

/-- model.rs `PanelData`: every field required. -/
structure PanelData where
  id : String
  date : String
  timestamp : Int
  energy : ℚ
  cumulative_energy : ℚ
  i_out : ℚ
  p : ℚ
  v_in : ℚ
  v_out : ℚ
  temp : ℚ
  deriving DecidableEq

def panelDataFromJson (v : Json) : Except String PanelData := do
  let _ ← require_object v "PanelData"
  let id ← req_string v "id"
  let date ← req_string v "date"
  let timestamp ← req_i64 v "timestamp"
  let energy ← req_f64 v "energy"
  let cumulative_energy ← req_f64 v "cumulative_energy"
  let i_out ← req_f64 v "i_out"
  let p ← req_f64 v "p"
  let v_in ← req_f64 v "v_in"
  let v_out ← req_f64 v "v_out"
  let temp ← req_f64 v "temp"
  return { id, date, timestamp, energy, cumulative_energy, i_out, p, v_in, v_out, temp }

/-- model.rs `PanelDailyData`. -/
structure PanelDailyData where
  id : String
  energy : ℚ
  deriving DecidableEq

def panelDailyDataFromJson (v : Json) : Except String PanelDailyData := do
  let _ ← require_object v "PanelDailyData"
  let id ← req_string v "id"
  let energy ← req_f64 v "energy"
  return { id, energy }

/-- model.rs `PlantData`. -/
structure PlantData where
  date : String
  energy : ℚ
  cumulative_energy : ℚ
  timestamp : Int
  deriving DecidableEq

def plantDataFromJson (v : Json) : Except String PlantData := do
  let _ ← require_object v "PlantData"
  let date ← req_string v "date"
  let energy ← req_f64 v "energy"
  let cumulative_energy ← req_f64 v "cumulative_energy"
  let timestamp ← req_i64 v "timestamp"
  return { date, energy, cumulative_energy, timestamp }

/-- model.rs `PlantDailyData`. -/
structure PlantDailyData where
  energy : ℚ
  date : String
  id : Option String
  deriving DecidableEq

def plantDailyDataFromJson (v : Json) : Except String PlantDailyData := do
  let _ ← require_object v "PlantDailyData"
  let energy ← req_f64 v "energy"
  let date ← req_string v "date"
  let id ← opt_string v "id"
  return { energy, date, id }

/-- model.rs `InverterData` (`timestamp` is `f64` there). -/
structure InverterData where
  id : String
  time : String
  energy : ℚ
  timestamp : ℚ
  deriving DecidableEq

def inverterDataFromJson (v : Json) : Except String InverterData := do
  let _ ← require_object v "InverterData"
  let id ← req_string v "id"
  let time ← req_string v "time"
  let energy ← req_f64 v "energy"
  let timestamp ← req_f64 v "timestamp"
  return { id, time, energy, timestamp }

/-- model.rs `InverterDailyData`. -/
structure InverterDailyData where
  id : String
  date : String
  energy : ℚ
  deriving DecidableEq

def inverterDailyDataFromJson (v : Json) : Except String InverterDailyData := do
  let _ ← require_object v "InverterDailyData"
  let id ← req_string v "id"
  let date ← req_string v "date"
  let energy ← req_f64 v "energy"
  return { id, date, energy }

/-- The common wrapper shape `Body*Data`: `plant_id`, `unit`, `source`,
`date`, `interval` required strings; `data` an optional vector of the
element type; `before` an optional `i64`.  All six wrappers in model.rs
have exactly these fields, differing only in the element type. -/
structure MetricsWrapper (Elem : Type) where
  plant_id : String
  unit : String
  source : String
  date : String
  interval : String
  data : Option (List Elem)
  before : Option Int

def metricsWrapperFromJson {Elem : Type} (structName : String)
    (elemDec : Json → Except String Elem) (v : Json) :
    Except String (MetricsWrapper Elem) := do
  let _ ← require_object v structName
  let plant_id ← req_string v "plant_id"
  let unit ← req_string v "unit"
  let source ← req_string v "source"
  let date ← req_string v "date"
  let interval ← req_string v "interval"
  let data ← opt_vec elemDec v "data"
  let before ← opt_i64 v "before"
  return { plant_id, unit, source, date, interval, data, before }

/-- model.rs `BodyPanelData` etc. -/
abbrev BodyPanelData := MetricsWrapper PanelData
abbrev BodyPanelDailyData := MetricsWrapper PanelDailyData
abbrev BodyInverterData := MetricsWrapper InverterData
abbrev BodyInverterDailyData := MetricsWrapper InverterDailyData
abbrev BodyPlantData := MetricsWrapper PlantData
abbrev BodyPlantDailyData := MetricsWrapper PlantDailyData

def bodyPanelDataFromJson : Json → Except String BodyPanelData :=
  metricsWrapperFromJson "BodyPanelData" panelDataFromJson

def bodyPanelDailyDataFromJson : Json → Except String BodyPanelDailyData :=
  metricsWrapperFromJson "BodyPanelDailyData" panelDailyDataFromJson

def bodyInverterDataFromJson : Json → Except String BodyInverterData :=
  metricsWrapperFromJson "BodyInverterData" inverterDataFromJson

def bodyInverterDailyDataFromJson : Json → Except String BodyInverterDailyData :=
  metricsWrapperFromJson "BodyInverterDailyData" inverterDailyDataFromJson

def bodyPlantDataFromJson : Json → Except String BodyPlantData :=
  metricsWrapperFromJson "BodyPlantData" plantDataFromJson

def bodyPlantDailyDataFromJson : Json → Except String BodyPlantDailyData :=
  metricsWrapperFromJson "BodyPlantDailyData" plantDailyDataFromJson

/-- model.rs `MetricsBody`. -/
inductive MetricsBody where
  | PanelIntraday (b : BodyPanelData)
  | PanelDaily (b : BodyPanelDailyData)
  | InverterIntraday (b : BodyInverterData)
  | InverterDaily (b : BodyInverterDailyData)
  | PlantIntraday (b : BodyPlantData)
  | PlantAggregated (b : BodyPlantDailyData)
  | Unknown (raw : Json)

/-- `MetricsBody::deserialize` (model.rs lines 529-560): read the `unit` and
`interval` string fields from the raw value, dispatch on the pair, validate
the matching shape (a failure there is a hard decode error), and fall back
to `Unknown` with the raw document for any unrecognized pair. -/
def metricsBodyFromJson (v : Json) : Except String MetricsBody :=
  match (v.get "unit").bind Json.asStr, (v.get "interval").bind Json.asStr with
  | some "panel", some "5m" => (bodyPanelDataFromJson v).map .PanelIntraday
  | some "panel", some "day" => (bodyPanelDailyDataFromJson v).map .PanelDaily
  | some "inverter", some "5m" => (bodyInverterDataFromJson v).map .InverterIntraday
  | some "inverter", some "day" => (bodyInverterDailyDataFromJson v).map .InverterDaily
  | some "plant", some "5m" => (bodyPlantDataFromJson v).map .PlantIntraday
  | some "plant", some "day" => (bodyPlantDailyDataFromJson v).map .PlantAggregated
  | _, _ => .ok (.Unknown v)

/-- The six-entry dispatch table of `MetricsBody::deserialize`, as a
predicate on the discriminant pair. -/
def known_pair : Option String → Option String → Bool
  | some "panel", some "5m" => true
  | some "panel", some "day" => true
  | some "inverter", some "5m" => true
  | some "inverter", some "day" => true
  | some "plant", some "5m" => true
  | some "plant", some "day" => true
  | _, _ => false

/-! ### The error taxonomy (error.rs) and classifier (client.rs 286-302) -/

/-- error.rs `Error`.  `Request` stands for transport failures (the payload
of `reqwest::Error` is irrelevant to control flow).  `ResponseTooLarge` is
constructed by `Client::read_body_limited` in client.rs (its declaration is
not in the `error.rs` provided, only its construction site). -/
inductive Error where
  | Request
  | Serialization (msg : String)
  | Api (status : Nat) (message : String)
  | ApiProblem (status : Nat) (title : String) (detail : Option String) (error : ErrorModel)
  | Unauthorized
  | RefreshFailed
  | Url (e : UrlParseError)
  | InvalidPath (path : List Char)
  | ResponseTooLarge (max : Nat)

/-- `Client::api_error`: try the body as a problem document (`ErrorModel`),
defaulting the title; otherwise an opaque `Api` error that deliberately
omits the raw body.  The body is `some j` when its text parses as JSON `j`,
`none` when it is not JSON. -/
def api_error (status : Nat) (body : Option Json) : Error :=
  match body with
  | some j =>
    match errorModelFromJson j with
    | some problem => .ApiProblem status (problem.title.getD "API Error") problem.detail problem
    | none => .Api status "upstream error body omitted"
  | none => .Api status "upstream error body omitted"

/-! ### `Client::url` (client.rs lines 126-140) -/

/-- `Client::url`: trim leading `/`, reject a `"://"` anywhere, reject any
segment whose single percent-decode is `"."`/`".."` or contains a slash or
backslash, then join onto the base URL (whose path ends in `/`). -/
def Client.url (base : UrlModel) (path : List Char) : Except Error UrlModel :=
  let p := trim_leading_slashes path
  if has_scheme_sep p then .error (.InvalidPath p)
  else if (split_on_slash p).any bad_segment then .error (.InvalidPath p)
  else
    match url_join base p with
    | .ok u => .ok u
    | .error e => .error (.Url e)

/-- Is this result the `InvalidPath` failure? -/
def is_invalid_path {T : Type} : Except Error T → Bool
  | .error (.InvalidPath _) => true
  | _ => false

/-! ### The request executor (client.rs lines 142-369)

State: the auth store slot (`Arc<RwLock<Option<AuthState>>>`) plus the
transport oracle — the queue of HTTP responses the server will hand out, in
order, one per send (exactly how the repository's mock-server tests drive
the client).  Every send records an event carrying the auth headers it
attached; every entry into `refresh_token` records a `refreshAttempt`. -/

/-- client.rs `AuthState` (the Session). -/
structure AuthState where
  token : String
  account_type : String
  deriving DecidableEq

structure Response where
  status : Nat
  body : Option Json

inductive SendKind where
  | primary
  | refresh
  deriving DecidableEq

inductive Event where
  | httpSend (kind : SendKind) (auth : Option AuthState)
  | refreshAttempt
  deriving DecidableEq

structure St where
  auth : Option AuthState
  pending : List Response

structure Out (T : Type) where
  res : Except Error T
  st : St
  events : List Event

/-- `StatusCode::is_success`. -/
def is_success (status : Nat) : Bool := 200 ≤ status && status < 300

/-- `Client::refresh_token` (client.rs lines 249-284): fail `Unauthorized`
with no network call when no session exists; otherwise send the refresh
request with the current token and account-type attached; on success decode
an `AuthBody` and replace only the token of the stored session if one is
still present; on 401/403 fail `Unauthorized`; on any other non-2xx fail
with the classified API error.  (The constant relative path
`api/v3/account/refresh-token` passes the `Client::url` checks.) -/
def refresh_token (st : St) : Out Unit :=
  match st.auth with
  | none => ⟨.error .Unauthorized, st, [.refreshAttempt]⟩
  | some a =>
    match st.pending with
    | [] => ⟨.error .Request, st, [.refreshAttempt, .httpSend .refresh (some a)]⟩
    | r :: rest =>
      let st1 : St := { st with pending := rest }
      let evs : List Event := [.refreshAttempt, .httpSend .refresh (some a)]
      if is_success r.status then
        match r.body with
        | some j =>
          match authBodyFromJson j with
          | .ok new_auth =>
            ⟨.ok (), { st1 with auth := st1.auth.map fun cur => { cur with token := new_auth.token } }, evs⟩
          | .error m => ⟨.error (.Serialization m), st1, evs⟩
        | none => ⟨.error (.Serialization "invalid json"), st1, evs⟩
      else if r.status = 401 || r.status = 403 then
        ⟨.error .Unauthorized, st1, evs⟩
      else
        ⟨.error (api_error r.status r.body), st1, evs⟩

/-- The tail of the executor loop body once no retry is taken: decode the
body on 2xx (`serde_json::from_slice::<T>` is the `decode` parameter) and
classify on non-2xx (client.rs lines 361-367). -/
def finish_response {T : Type} (decode : Json → Except String T)
    (st1 : St) (r : Response) (ev : List Event) : Out T :=
  if is_success r.status then
    match r.body with
    | some j =>
      match decode j with
      | .ok t => ⟨.ok t, st1, ev⟩
      | .error m => ⟨.error (.Serialization m), st1, ev⟩
    | none => ⟨.error (.Serialization "invalid json"), st1, ev⟩
  else
    ⟨.error (api_error r.status r.body), st1, ev⟩

/-- `Client::execute_json_internal` (client.rs lines 324-369).  `retries`
starts at 1; a 401 with a token attached, refresh allowed and a retry left
(`retries > 0` is the `n + 1` pattern) consumes the retry, runs the refresh
protocol (propagating its failure via `?`) and loops; otherwise
`finish_response` completes the call. -/
def execute_json_internal {T : Type} (decode : Json → Except String T)
    (allow_refresh_on_401 include_auth : Bool) :
    Nat → St → Out T
  | retries, st =>
    let auth : Option AuthState := if include_auth then st.auth else none
    let authed : Bool := if include_auth then st.auth.isSome else false
    match st.pending with
    | [] => ⟨.error .Request, st, [.httpSend .primary auth]⟩
    | r :: rest =>
      let st1 : St := { st with pending := rest }
      let ev : List Event := [.httpSend .primary auth]
      match retries with
      | n + 1 =>
        if decide (r.status = 401) && authed && allow_refresh_on_401 then
          let ro := refresh_token st1
          match ro.res with
          | .error e => ⟨.error e, ro.st, ev ++ ro.events⟩
          | .ok _ =>
            let next := execute_json_internal decode allow_refresh_on_401 include_auth n ro.st
            ⟨next.res, next.st, ev ++ ro.events ++ next.events⟩
        else finish_response decode st1 r ev
      | 0 => finish_response decode st1 r ev

/-- `Client::execute_json`: authenticated, refresh-eligible. -/
def execute_json {T : Type} (decode : Json → Except String T) (st : St) : Out T :=
  execute_json_internal decode true true 1 st

/-- `Client::execute_json_unauth_no_refresh`: used by the login endpoints. -/
def execute_json_unauth_no_refresh {T : Type} (decode : Json → Except String T) (st : St) : Out T :=
  execute_json_internal decode false false 1 st

/-- `Client::clear_auth_on_login_failure` (client.rs lines 235-247). -/
def clear_auth_on_login_failure (err : Error) (st : St) : St :=
  let should_clear : Bool :=
    match err with
    | .Api status _ => decide (status = 401) || decide (status = 403)
    | .ApiProblem status _ _ _ => decide (status = 401) || decide (status = 403)
    | .Unauthorized => true
    | _ => false
  if should_clear then { st with auth := none } else st

/-- `Client::login` (client.rs lines 142-179), auth-store behaviour: run the
login request through `execute_json_unauth_no_refresh`; on failure clear the
store when the failure is 401/403/Unauthorized; on success store the session
built from the response.  (The request body built from account/password and
the constant validated path do not influence the store and are omitted.) -/
def login (st : St) : Out AuthOutputV3Body :=
  let out := execute_json_unauth_no_refresh authOutputV3FromJson st
  match out.res with
  | .error e => ⟨.error e, clear_auth_on_login_failure e out.st, out.events⟩
  | .ok auth =>
    ⟨.ok auth, { out.st with auth := some ⟨auth.token, auth.account_type⟩ }, out.events⟩

/-! ### Bounded body reads (client.rs lines 18-19 and 420-429) -/

def DEFAULT_MAX_RESPONSE_BYTES : Nat := 10 <<< 20

/-- `Client::read_body_limited`, accumulator form: the body collected so far
plus the remaining chunks the transport will deliver. -/
def read_body_go (body : List Nat) : List (List Nat) → Except Error (List Nat)
  | [] => .ok body
  | chunk :: rest =>
    if DEFAULT_MAX_RESPONSE_BYTES < body.length + chunk.length then
      .error (.ResponseTooLarge DEFAULT_MAX_RESPONSE_BYTES)
    else
      read_body_go (body ++ chunk) rest

def read_body_limited (chunks : List (List Nat)) : Except Error (List Nat) :=
  read_body_go [] chunks

/-! ### Trace counting helpers -/

def is_refresh_attempt : Event → Bool
  | .refreshAttempt => true
  | _ => false

def is_primary_send : Event → Bool
  | .httpSend .primary _ => true
  | _ => false

def count_refresh_attempts (evs : List Event) : Nat := evs.countP is_refresh_attempt

def count_primary_sends (evs : List Event) : Nat := evs.countP is_primary_send

/-! ### Path builder lemmas -/

lemma bad_segment_nil : bad_segment [] = false := rfl

/-- Trimming leading slashes cannot destroy a `"://"` occurrence: the
occurrence starts with `:`, which is never in the trimmed prefix. -/
lemma has_scheme_sep_trim (p : List Char) (h : has_scheme_sep p = true) :
    has_scheme_sep (trim_leading_slashes p) = true := by
  induction p with
  | nil => simpa [trim_leading_slashes] using h
  | cons c rest ih =>
    by_cases hc : c = '/'
    · subst hc
      simp only [trim_leading_slashes, if_pos rfl]
      apply ih
      simpa [has_scheme_sep] using h
    · simpa [trim_leading_slashes, hc] using h

/-- Trimming leading slashes only removes empty leading segments, which are
never bad, so a bad segment survives trimming. -/
lemma any_bad_trim (p : List Char)
    (h : (split_on_slash p).any bad_segment = true) :
    (split_on_slash (trim_leading_slashes p)).any bad_segment = true := by
  induction p with
  | nil => simpa [trim_leading_slashes] using h
  | cons c rest ih =>
    by_cases hc : c = '/'
    · subst hc
      simp only [trim_leading_slashes, if_pos rfl]
      apply ih
      simpa [split_on_slash, bad_segment_nil] using h
    · simpa [trim_leading_slashes, hc] using h

/-- Any path with a bad segment is rejected by `Client::url`. -/
lemma url_invalid_of_bad_segment (base : UrlModel) (p : List Char)
    (h : (split_on_slash p).any bad_segment = true) :
    is_invalid_path (Client.url base p) = true := by
  unfold Client.url
  cases hs : has_scheme_sep (trim_leading_slashes p) with
  | true => simp [hs, is_invalid_path]
  | false => simp [hs, any_bad_trim p h, is_invalid_path]

/-- Any path containing `"://"` is rejected by `Client::url`. -/
lemma url_invalid_of_scheme_sep (base : UrlModel) (p : List Char)
    (h : has_scheme_sep p = true) :
    is_invalid_path (Client.url base p) = true := by
  unfold Client.url
  simp [has_scheme_sep_trim p h, is_invalid_path]

/-- C1: for every relative path that contains a segment whose single
percent-decoding (which also covers the zero-decode literal case, since
decoding a `%`-free segment is the identity, and hex digits of either case)
equals `.` or `..`, or whose decoded value contains a forward or backward
slash, or that contains `"://"` anywhere, `Client::url` fails with the
`InvalidPath` error and produces no URL. -/
theorem c1_url_rejects_traversal (base : UrlModel) (p : List Char)
    (h : has_scheme_sep p = true ∨ (split_on_slash p).any bad_segment = true) :
    is_invalid_path (Client.url base p) = true := by
  cases h with
  | inl h => exact url_invalid_of_scheme_sep base p h
  | inr h => exact url_invalid_of_bad_segment base p h

def example_base : UrlModel :=
  { scheme := "https", host := "example.com", port := none, path := ['/'] }

/-- C1 witness: the mixed-case percent-encoded traversal path from the
repository's own tests is rejected. -/
theorem c1_url_rejects_traversal_witness :
    is_invalid_path (Client.url example_base ("api/v3/plants/%2e%2E/admin".data)) = true :=
  c1_url_rejects_traversal example_base ("api/v3/plants/%2e%2E/admin".data)
    (Or.inr (by decide))

/-! ### C9: `Client::url` error kinds -/

/-- C9 counterexample: the claim says `InvalidPath` is the only error kind of
`Client::url`.  The path `"http:"` passes the `"://"` and segment checks, but
`Url::join` then parses it as a special scheme different from the base's,
enters authority parsing and fails with an empty-host parse error, which
`Client::url` surfaces as the `Url` error kind — not `InvalidPath` and not a
URL. -/
theorem c9_counterexample :
    Client.url example_base ("http:".data) = .error (.Url .emptyHost) := rfl

/-- C9 amended: `Client::url` is total and never panics, and for every input
it returns a URL, an `InvalidPath` error, or a URL-parse error propagated
from joining onto the base; `InvalidPath` and the join's parse error are the
only error kinds, and malformed percent-escapes are decoded lossily rather
than aborting. -/
theorem c9_amended_url_error_kinds (base : UrlModel) (p : List Char) :
    (∃ u, Client.url base p = .ok u) ∨
      (∃ s, Client.url base p = .error (.InvalidPath s)) ∨
      (∃ e, Client.url base p = .error (.Url e)) := by
  unfold Client.url
  cases h1 : has_scheme_sep (trim_leading_slashes p) with
  | true => exact Or.inr (Or.inl ⟨trim_leading_slashes p, by simp [h1]⟩)
  | false =>
    cases h2 : (split_on_slash (trim_leading_slashes p)).any bad_segment with
    | true => exact Or.inr (Or.inl ⟨trim_leading_slashes p, by simp [h1, h2]⟩)
    | false =>
      cases hj : url_join base (trim_leading_slashes p) with
      | ok u => exact Or.inl ⟨u, by simp [h1, h2, hj]⟩
      | error e => exact Or.inr (Or.inr ⟨e, by simp [h1, h2, hj]⟩)

/-! ### C10: `encode_path_segment("..")` -/

/-- C10 counterexample: the claim says the encoded value of `".."`, embedded
as a single segment and percent-decoded once, is not equal to `"."` or
`".."`.  In fact `encode_path_segment("..") = "%2E%2E"` and one decode pass
returns exactly `".."`: percent-encoding is inverted by a single decode. -/
theorem c10_counterexample :
    encode_path_segment ("..".data) = "%2E%2E".data ∧
      percent_decode (encode_path_segment ("..".data)) = "..".data := by
  constructor <;> decide

lemma split_of_slash_free (s : List Char) (h : s.contains '/' = false) :
    split_on_slash s = [s] := by
  induction s with
  | nil => rfl
  | cons c rest ih =>
    simp only [List.contains_cons, Bool.or_eq_false_iff] at h
    have hc : ¬(c = '/') := by
      intro hc; subst hc; simp at h
    simp [split_on_slash, hc, ih h.2]

lemma split_append_slash (s t : List Char) (h : s.contains '/' = false) :
    split_on_slash (s ++ '/' :: t) = s :: split_on_slash t := by
  induction s with
  | nil => simp [split_on_slash]
  | cons c rest ih =>
    simp only [List.contains_cons, Bool.or_eq_false_iff] at h
    have hc : ¬(c = '/') := by
      intro hc; subst hc; simp at h
    simp [split_on_slash, hc, ih h.2]

lemma split_intercalate (segs : List (List Char)) (hne : segs ≠ [])
    (hfree : ∀ s ∈ segs, s.contains '/' = false) :
    split_on_slash (intercalate_slash segs) = segs := by
  induction segs with
  | nil => exact absurd rfl hne
  | cons s rest ih =>
    cases rest with
    | nil =>
      exact split_of_slash_free s (hfree s (by simp))
    | cons s2 rest2 =>
      have h1 : s.contains '/' = false := hfree s (by simp)
      have h2 : ∀ x ∈ s2 :: rest2, x.contains '/' = false := by
        intro x hx; exact hfree x (by simp [hx])
      simp only [intercalate_slash]
      rw [split_append_slash s _ h1, ih (by simp) h2]

/-- C10 amended: `encode_path_segment("..")` is `"%2E%2E"`, which is itself
(zero decode passes) neither `"."` nor `".."`, and any path embedding it as
a single segment is rejected by `Client::url` with `InvalidPath` — because
its one-pass decode is exactly `".."` — so a raw `".."` segment can never
reach a built URL as a traversal token. -/
theorem c10_amended_encoded_dotdot_rejected (base : UrlModel)
    (segs : List (List Char))
    (hfree : ∀ s ∈ segs, s.contains '/' = false)
    (hmem : encode_path_segment ("..".data) ∈ segs) :
    encode_path_segment ("..".data) = "%2E%2E".data ∧
      encode_path_segment ("..".data) ≠ ['.'] ∧
      encode_path_segment ("..".data) ≠ ['.', '.'] ∧
      is_invalid_path (Client.url base (intercalate_slash segs)) = true := by
  refine ⟨by decide, by decide, by decide, ?_⟩
  have hne : segs ≠ [] := by
    intro hnil; rw [hnil] at hmem; exact absurd hmem (by simp)
  apply url_invalid_of_bad_segment
  rw [split_intercalate segs hne hfree]
  rw [List.any_eq_true]
  exact ⟨_, hmem, by decide⟩

/-- C10 witness: embedding the encoded `".."` between the segments used by
`get_plant_v3` is rejected. -/
theorem c10_amended_encoded_dotdot_rejected_witness :
    is_invalid_path
      (Client.url example_base
        (intercalate_slash ["api".data, "v3".data, "plants".data,
          encode_path_segment ("..".data)])) = true :=
  (c10_amended_encoded_dotdot_rejected example_base
    ["api".data, "v3".data, "plants".data, encode_path_segment ("..".data)]
    (by decide) (by decide)).2.2.2

/-! ### C8: bounded body reads -/

lemma read_body_go_ok (chunks : List (List Nat)) (body : List Nat)
    (h : body.length + (chunks.map List.length).sum ≤ DEFAULT_MAX_RESPONSE_BYTES) :
    read_body_go body chunks = .ok (body ++ chunks.flatten) := by
  induction chunks generalizing body with
  | nil => simp [read_body_go]
  | cons c rest ih =>
    simp only [List.map_cons, List.sum_cons] at h
    have hc : ¬(DEFAULT_MAX_RESPONSE_BYTES < body.length + c.length) := by omega
    rw [read_body_go, if_neg hc, ih (body ++ c) (by simp; omega)]
    simp

lemma read_body_go_err (chunks : List (List Nat)) (body : List Nat)
    (hinv : body.length ≤ DEFAULT_MAX_RESPONSE_BYTES)
    (h : DEFAULT_MAX_RESPONSE_BYTES < body.length + (chunks.map List.length).sum) :
    read_body_go body chunks = .error (.ResponseTooLarge DEFAULT_MAX_RESPONSE_BYTES) := by
  induction chunks generalizing body with
  | nil => simp at h; omega
  | cons c rest ih =>
    simp only [List.map_cons, List.sum_cons] at h
    by_cases hc : DEFAULT_MAX_RESPONSE_BYTES < body.length + c.length
    · rw [read_body_go, if_pos hc]
    · rw [read_body_go, if_neg hc]
      exact ih (body ++ c) (by simp; omega) (by simp; omega)

/-- C8: a response whose chunks total at most `DEFAULT_MAX_RESPONSE_BYTES`
(10 MiB) is read fully and returned; a body that exceeds the maximum by even
one byte fails closed with the response-too-large error (the loop aborts at
the first chunk that would cross the limit, so the full body is never
accumulated). -/
theorem c8_read_body_limited_bound (chunks : List (List Nat)) :
    ((chunks.map List.length).sum ≤ DEFAULT_MAX_RESPONSE_BYTES →
      read_body_limited chunks = .ok chunks.flatten) ∧
    (DEFAULT_MAX_RESPONSE_BYTES < (chunks.map List.length).sum →
      read_body_limited chunks = .error (.ResponseTooLarge DEFAULT_MAX_RESPONSE_BYTES)) := by
  constructor
  · intro h
    simpa [read_body_limited] using read_body_go_ok chunks [] (by simpa using h)
  · intro h
    simpa [read_body_limited] using
      read_body_go_err chunks [] (by simp) (by simpa using h)

/-- C8 witness: a small body is read fully; a body one byte over the 10 MiB
maximum fails closed. -/
theorem c8_read_body_limited_bound_witness :
    read_body_limited [[1, 2], [3]] = .ok [1, 2, 3] ∧
      read_body_limited [List.replicate (DEFAULT_MAX_RESPONSE_BYTES + 1) 0] =
        .error (.ResponseTooLarge DEFAULT_MAX_RESPONSE_BYTES) := by
  constructor
  · exact (c8_read_body_limited_bound [[1, 2], [3]]).1 (by decide)
  · exact (c8_read_body_limited_bound [List.replicate (DEFAULT_MAX_RESPONSE_BYTES + 1) 0]).2
      (by
        rw [List.map_cons, List.map_nil, List.length_replicate, List.sum_cons,
          List.sum_nil]
        omega)

/-! ### C4: metrics tag dispatch -/

/-- The full `unit="panel", interval="5m"` document from the repository's
tests (tests/models.rs), with every required field present. -/
def panel_intraday_doc : Json :=
  .obj [("plant_id", .str "p1"), ("unit", .str "panel"), ("source", .str "device"),
    ("date", .str "2026-01-01"), ("interval", .str "5m"),
    ("data", .arr [.obj [("id", .str "x1"), ("date", .str "2026-01-01"),
      ("timestamp", .num 1), ("energy", .num 1), ("cumulative_energy", .num 2),
      ("i_out", .num 3), ("p", .num 4), ("v_in", .num 5), ("v_out", .num 6),
      ("temp", .num 7)]])]

/-- The same document with the required numeric field `energy` omitted from
the data element. -/
def panel_doc_no_energy : Json :=
  .obj [("plant_id", .str "p1"), ("unit", .str "panel"), ("source", .str "device"),
    ("date", .str "2026-01-01"), ("interval", .str "5m"),
    ("data", .arr [.obj [("id", .str "x1"), ("date", .str "2026-01-01"),
      ("timestamp", .num 1), ("cumulative_energy", .num 2),
      ("i_out", .num 3), ("p", .num 4), ("v_in", .num 5), ("v_out", .num 6),
      ("temp", .num 7)]])]

/-- An (unit, interval) pair outside the six known pairs. -/
def mystery_doc : Json :=
  .obj [("unit", .str "mystery"), ("interval", .str "5m"), ("extra", .num 42)]

/-- The typed value the full document should decode to. -/
def expected_panel_element : PanelData :=
  { id := "x1", date := "2026-01-01", timestamp := 1, energy := 1,
    cumulative_energy := 2, i_out := 3, p := 4, v_in := 5, v_out := 6,
    temp := 7 }

def expected_panel_body : BodyPanelData :=
  { plant_id := "p1", unit := "panel", source := "device",
    date := "2026-01-01", interval := "5m",
    data := some [expected_panel_element], before := none }

/-- C4: a `unit="panel", interval="5m"` document with all required fields
decodes to `PanelIntraday` with those fields; the same shape with `energy`
omitted is a hard decode failure whose message names `energy`; and any
document whose `(unit, interval)` pair is outside the six known pairs
decodes to `Unknown` carrying the original document unchanged. -/
theorem c4_metrics_dispatch :
    metricsBodyFromJson panel_intraday_doc = .ok (.PanelIntraday expected_panel_body) ∧
    metricsBodyFromJson panel_doc_no_energy = .error "missing field `energy`" ∧
    (∀ v : Json,
      known_pair ((v.get "unit").bind Json.asStr) ((v.get "interval").bind Json.asStr) = false →
      metricsBodyFromJson v = .ok (.Unknown v)) := by
  refine ⟨by rfl, by rfl, ?_⟩
  intro v hk
  unfold metricsBodyFromJson
  split
  all_goals first
    | rfl
    | (rename_i hu hi; simp [hu, hi, known_pair] at hk)

/-- C4 witness: the `unit="mystery"` document falls through to `Unknown`
with the original document preserved. -/
theorem c4_metrics_dispatch_witness :
    metricsBodyFromJson mystery_doc = .ok (.Unknown mystery_doc) :=
  (c4_metrics_dispatch).2.2 mystery_doc (by rfl)

/-! ### C6: the refresh write-back frame -/

/-- The refresh write-back preserves the account-type view of the store in
every branch (success, decode failure, 401/403, other API error, transport
failure, no session). -/
lemma refresh_token_account_type_map (st : St) :
    (refresh_token st).st.auth.map AuthState.account_type =
      st.auth.map AuthState.account_type := by
  obtain ⟨auth, pending⟩ := st
  cases auth with
  | none => rfl
  | some a =>
    cases pending with
    | nil => rfl
    | cons r rest =>
      simp only [refresh_token]
      split
      · split
        · split <;> rfl
        · rfl
      · split <;> rfl

/-- C6: the auth-store update of `refresh_token` changes at most the token
field: it never creates a session where none was stored (so in particular a
store empty at write-back time stays empty and, sequentially, a refresh with
no session fails `Unauthorized` with no state change and no network call),
and whenever a session is stored before and after, the `account_type` is
retained unchanged.  (That a stored session always has token and
account-type set together is structural: `AuthState` carries both fields
unconditionally.) -/
theorem c6_refresh_preserves_account_type (st : St) :
    ((refresh_token st).st.auth.isSome = true → st.auth.isSome = true) ∧
    (∀ a b : AuthState, st.auth = some a → (refresh_token st).st.auth = some b →
      b.account_type = a.account_type) ∧
    (st.auth = none →
      (refresh_token st).st = st ∧ (refresh_token st).res = .error .Unauthorized) := by
  have hmap := refresh_token_account_type_map st
  refine ⟨?_, ?_, ?_⟩
  · intro h
    cases hra : (refresh_token st).st.auth with
    | none => rw [hra] at h; simp at h
    | some b =>
      rw [hra] at hmap
      cases hst : st.auth with
      | none => rw [hst] at hmap; simp at hmap
      | some a => rfl
  · intro a b ha hb
    rw [ha, hb] at hmap
    simpa using hmap
  · intro h
    obtain ⟨auth, pending⟩ := st
    cases auth with
    | none => exact ⟨rfl, rfl⟩
    | some a => simp at h

def refresh_demo_state : St :=
  ⟨some ⟨"old", "manager"⟩,
    [⟨200, some (.obj [("token", .str "new"), ("name", .str "m")])⟩]⟩

/-- C6 witness: a successful concrete refresh replaces the token and keeps
the account type; a refresh with an empty store fails `Unauthorized`. -/
theorem c6_refresh_preserves_account_type_witness :
    (refresh_token refresh_demo_state).st.auth = some ⟨"new", "manager"⟩ ∧
    (⟨"new", "manager"⟩ : AuthState).account_type =
      (⟨"old", "manager"⟩ : AuthState).account_type ∧
    (refresh_token ⟨none, []⟩).res = .error .Unauthorized :=
  ⟨rfl,
    (c6_refresh_preserves_account_type refresh_demo_state).2.1
      ⟨"old", "manager"⟩ ⟨"new", "manager"⟩ rfl rfl,
    ((c6_refresh_preserves_account_type ⟨none, []⟩).2.2 rfl).2⟩

/-! ### C7: login requests carry no auth headers -/

lemma finish_response_events {T : Type} (decode : Json → Except String T)
    (st1 : St) (r : Response) (ev : List Event) :
    (finish_response decode st1 r ev).events = ev := by
  unfold finish_response
  split
  · split
    · split <;> rfl
    · rfl
  · rfl

lemma finish_response_st {T : Type} (decode : Json → Except String T)
    (st1 : St) (r : Response) (ev : List Event) :
    (finish_response decode st1 r ev).st = st1 := by
  unfold finish_response
  split
  · split
    · split <;> rfl
    · rfl
  · rfl

lemma finish_response_res_fail {T : Type} (decode : Json → Except String T)
    (st1 : St) (r : Response) (ev : List Event)
    (h : is_success r.status = false) :
    (finish_response decode st1 r ev).res = .error (api_error r.status r.body) := by
  unfold finish_response
  rw [if_neg (by simp [h])]

lemma finish_response_res_body {T : Type} (decode : Json → Except String T)
    (st1 : St) (r : Response) (ev : List Event) (j : Json)
    (hs : is_success r.status = true) (hb : r.body = some j) :
    (finish_response decode st1 r ev).res =
      (match decode j with
       | .ok t => .ok t
       | .error m => .error (.Serialization m)) := by
  unfold finish_response
  rw [if_pos hs, hb]
  cases hd : decode j <;> simp [hd]

/-- A non-empty unauthenticated no-refresh run is a single completed send
with no auth headers attached. -/
lemma execute_unauth_eq {T : Type} (decode : Json → Except String T)
    (auth0 : Option AuthState) (r : Response) (rest : List Response) :
    execute_json_unauth_no_refresh decode ⟨auth0, r :: rest⟩ =
      finish_response decode ⟨auth0, rest⟩ r [Event.httpSend SendKind.primary none] := by
  simp [execute_json_unauth_no_refresh, execute_json_internal]

lemma execute_unauth_events {T : Type} (decode : Json → Except String T) (st : St) :
    (execute_json_unauth_no_refresh decode st).events =
      [Event.httpSend SendKind.primary none] := by
  obtain ⟨auth0, pending⟩ := st
  cases pending with
  | nil => rfl
  | cons r rest =>
    rw [execute_unauth_eq]
    exact finish_response_events _ _ _ _

lemma login_events_eq (st : St) :
    (login st).events = (execute_json_unauth_no_refresh authOutputV3FromJson st).events := by
  simp only [login]
  split <;> rfl

/-- C7: a login call sends exactly one request, that request carries no
Authorization and no Account-Type header (the attached auth is `none`),
and the trace is literally the same whatever the auth store holds — in
particular identical whether or not a previous session is stored. -/
theorem c7_login_sends_no_auth_headers (st : St) :
    (login st).events = [Event.httpSend SendKind.primary none] ∧
    (∀ e ∈ (login st).events, ∀ k a, e = Event.httpSend k a → a = none) ∧
    (∀ st2 : St, st2.pending = st.pending → (login st2).events = (login st).events) := by
  have h : (login st).events = [Event.httpSend SendKind.primary none] :=
    (login_events_eq st).trans (execute_unauth_events _ st)
  refine ⟨h, ?_, ?_⟩
  · intro e he k a hk
    rw [h] at he
    simp only [List.mem_singleton] at he
    subst he
    cases hk
    rfl
  · intro st2 _
    rw [h, (login_events_eq st2).trans (execute_unauth_events _ st2)]

/-- C7 witness: with a stale session stored, the login trace is a single
send with no auth headers, and it equals the trace from an empty store. -/
theorem c7_login_sends_no_auth_headers_witness :
    (login ⟨some ⟨"stale", "manager"⟩, [⟨200, none⟩]⟩).events =
      [Event.httpSend SendKind.primary none] ∧
    (login ⟨none, [⟨200, none⟩]⟩).events =
      (login ⟨some ⟨"stale", "manager"⟩, [⟨200, none⟩]⟩).events :=
  ⟨(c7_login_sends_no_auth_headers ⟨some ⟨"stale", "manager"⟩, [⟨200, none⟩]⟩).1,
    (c7_login_sends_no_auth_headers ⟨some ⟨"stale", "manager"⟩, [⟨200, none⟩]⟩).2.2
      ⟨none, [⟨200, none⟩]⟩ rfl⟩

/-! ### C5: login and the auth store -/

lemma clear_auth_api_error (s : Nat) (b : Option Json) (st : St) :
    clear_auth_on_login_failure (api_error s b) st =
      if s = 401 ∨ s = 403 then { st with auth := none } else st := by
  by_cases h : s = 401 ∨ s = 403
  · cases b with
    | none => simp [api_error, clear_auth_on_login_failure, h]
    | some j =>
      cases hd : errorModelFromJson j <;>
        simp [api_error, clear_auth_on_login_failure, hd, h]
  · have h1 : ¬(s = 401) := fun hh => h (Or.inl hh)
    have h3 : ¬(s = 403) := fun hh => h (Or.inr hh)
    cases b with
    | none => simp [api_error, clear_auth_on_login_failure, h, h1, h3]
    | some j =>
      cases hd : errorModelFromJson j <;>
        simp [api_error, clear_auth_on_login_failure, hd, h, h1, h3]

/-- The one-response run of the executor used by the login endpoints. -/
lemma execute_unauth_single (T : Type) (decode : Json → Except String T)
    (auth0 : Option AuthState) (r : Response) :
    (execute_json_unauth_no_refresh decode ⟨auth0, [r]⟩).st = ⟨auth0, []⟩ ∧
    (is_success r.status = false →
      (execute_json_unauth_no_refresh decode ⟨auth0, [r]⟩).res =
        .error (api_error r.status r.body)) ∧
    (∀ j, is_success r.status = true → r.body = some j →
      (execute_json_unauth_no_refresh decode ⟨auth0, [r]⟩).res =
        (match decode j with
         | .ok t => .ok t
         | .error m => .error (.Serialization m))) := by
  rw [execute_unauth_eq]
  exact ⟨finish_response_st _ _ _ _,
    fun hns => finish_response_res_fail _ _ _ _ hns,
    fun j hs hb => finish_response_res_body _ _ _ _ j hs hb⟩

/-- C5: after a successful login the store holds the session built from the
response; a login failure with HTTP status 401 or 403 leaves no session,
even if one was stored before; any other failure (other non-2xx statuses,
or a 2xx body that fails to decode) leaves the stored session unchanged. -/
theorem c5_login_auth_store (st : St) (r : Response) (hp : st.pending = [r]) :
    (∀ j auth, is_success r.status = true → r.body = some j →
      authOutputV3FromJson j = .ok auth →
      (login st).st.auth = some ⟨auth.token, auth.account_type⟩) ∧
    ((r.status = 401 ∨ r.status = 403) → (login st).st.auth = none) ∧
    (is_success r.status = false → ¬(r.status = 401) → ¬(r.status = 403) →
      (login st).st.auth = st.auth) ∧
    (∀ j m, is_success r.status = true → r.body = some j →
      authOutputV3FromJson j = .error m → (login st).st.auth = st.auth) := by
  obtain ⟨auth0, pending⟩ := st
  simp only at hp
  subst hp
  have hsingle := execute_unauth_single AuthOutputV3Body authOutputV3FromJson auth0 r
  refine ⟨?_, ?_, ?_, ?_⟩
  · intro j auth hs hb hd
    have hres := hsingle.2.2 j hs hb
    rw [hd] at hres
    simp only [login, hres]
  · intro h401
    have hns : is_success r.status = false := by
      cases h401 with
      | inl h => rw [h]; rfl
      | inr h => rw [h]; rfl
    have hres := hsingle.2.1 hns
    simp only [login, hres]
    rw [hsingle.1, clear_auth_api_error, if_pos h401]
  · intro hns h1 h3
    have hres := hsingle.2.1 hns
    simp only [login, hres]
    rw [hsingle.1, clear_auth_api_error,
      if_neg (by intro hh; cases hh with | inl h => exact h1 h | inr h => exact h3 h)]
  · intro j m hs hb hd
    have hres := hsingle.2.2 j hs hb
    rw [hd] at hres
    simp only [login, hres]
    rw [hsingle.1]
    rfl

def login_ok_demo : Response :=
  ⟨200, some (.obj [("token", .str "t1"), ("type", .str "manager"), ("name", .str "m")])⟩

/-- C5 witness: a successful login stores the session from the response; a
401 login failure clears a previously stored session; a 500 login failure
keeps it. -/
theorem c5_login_auth_store_witness :
    (login ⟨none, [login_ok_demo]⟩).st.auth = some ⟨"t1", "manager"⟩ ∧
    (login ⟨some ⟨"stale", "manager"⟩, [⟨401, none⟩]⟩).st.auth = none ∧
    (login ⟨some ⟨"stale", "manager"⟩, [⟨500, none⟩]⟩).st.auth =
      some ⟨"stale", "manager"⟩ := by
  refine ⟨?_, ?_, ?_⟩
  · exact (c5_login_auth_store ⟨none, [login_ok_demo]⟩ login_ok_demo rfl).1
      (.obj [("token", .str "t1"), ("type", .str "manager"), ("name", .str "m")])
      { token := "t1", account_type := "manager", name := "m", email := none,
        username := none, organizations := none, metadata := none }
      rfl rfl rfl
  · exact (c5_login_auth_store ⟨some ⟨"stale", "manager"⟩, [⟨401, none⟩]⟩
      ⟨401, none⟩ rfl).2.1 (Or.inl rfl)
  · exact (c5_login_auth_store ⟨some ⟨"stale", "manager"⟩, [⟨500, none⟩]⟩
      ⟨500, none⟩ rfl).2.2.1 rfl (by decide) (by decide)

/-! ### C2 and C3: the 401 refresh-and-retry protocol -/

lemma refresh_token_success_eq (a : AuthState) (r : Response) (rest : List Response)
    (j : Json) (nb : AuthBody) (h2 : is_success r.status = true)
    (hb : r.body = some j) (hab : authBodyFromJson j = .ok nb) :
    refresh_token ⟨some a, r :: rest⟩ =
      ⟨.ok (), ⟨some ⟨nb.token, a.account_type⟩, rest⟩,
        [.refreshAttempt, .httpSend .refresh (some a)]⟩ := by
  simp [refresh_token, h2, hb, hab]

lemma refresh_token_non2xx_res (a : AuthState) (r : Response) (rest : List Response)
    (hns : is_success r.status = false) (h1 : ¬(r.status = 401)) (h3 : ¬(r.status = 403)) :
    (refresh_token ⟨some a, r :: rest⟩).res = .error (api_error r.status r.body) := by
  simp [refresh_token, hns, h1, h3]

lemma refresh_token_unauthorized_res (a : AuthState) (r : Response) (rest : List Response)
    (h401 : r.status = 401 ∨ r.status = 403) :
    (refresh_token ⟨some a, r :: rest⟩).res = .error .Unauthorized := by
  cases h401 with
  | inl h => simp [refresh_token, h, show is_success 401 = false from rfl]
  | inr h => simp [refresh_token, h, show is_success 403 = false from rfl]

/-- Whatever branch `refresh_token` takes, its trace holds exactly one
`refreshAttempt`. -/
lemma refresh_token_one_attempt (st : St) :
    count_refresh_attempts (refresh_token st).events = 1 := by
  obtain ⟨auth, pending⟩ := st
  cases auth with
  | none => rfl
  | some a =>
    cases pending with
    | nil => rfl
    | cons r rest =>
      simp only [refresh_token]
      split
      · split
        · split <;> rfl
        · rfl
      · split <;> rfl

lemma execute_auth_zero (T : Type) (decode : Json → Except String T)
    (auth2 : Option AuthState) (r : Response) (rest : List Response) :
    execute_json_internal decode true true 0 ⟨auth2, r :: rest⟩ =
      finish_response decode ⟨auth2, rest⟩ r [Event.httpSend SendKind.primary auth2] := by
  simp [execute_json_internal]

/-- With the single retry consumed, the executor never attempts a refresh
again. -/
lemma execute_zero_no_refresh (T : Type) (decode : Json → Except String T) (st : St) :
    count_refresh_attempts (execute_json_internal decode true true 0 st).events = 0 := by
  obtain ⟨auth2, pending⟩ := st
  cases pending with
  | nil => rfl
  | cons r rest =>
    rw [execute_auth_zero, finish_response_events]
    rfl

/-- An authenticated refresh-eligible call whose first response is 401
performs exactly one refresh attempt, whatever the refresh and the retried
send return. -/
lemma execute_json_401_one_refresh (T : Type) (decode : Json → Except String T)
    (a : AuthState) (r1 : Response) (rest : List Response) (h1 : r1.status = 401) :
    count_refresh_attempts (execute_json decode ⟨some a, r1 :: rest⟩).events = 1 := by
  simp only [execute_json, execute_json_internal, h1]
  have h1' := refresh_token_one_attempt ⟨some a, rest⟩
  simp only [count_refresh_attempts] at h1'
  cases hro : (refresh_token ⟨some a, rest⟩).res with
  | error e =>
    simp [hro, count_refresh_attempts, List.countP_append, List.countP_cons,
      is_refresh_attempt, h1']
  | ok u =>
    cases hp2 : (refresh_token ⟨some a, rest⟩).st.pending with
    | nil =>
      simp [hro, hp2, count_refresh_attempts, List.countP_append, List.countP_cons,
        is_refresh_attempt, h1']
    | cons r rest2 =>
      simp [hro, hp2, count_refresh_attempts, List.countP_append, List.countP_cons,
        is_refresh_attempt, finish_response_events, h1']

/-- A failing refresh sub-call's own error is what the whole logical call
fails with (`self.refresh_token().await?`). -/
lemma execute_json_refresh_fail (T : Type) (decode : Json → Except String T)
    (a : AuthState) (r1 r2 : Response) (rest : List Response)
    (h1 : r1.status = 401) (e : Error)
    (hre : (refresh_token ⟨some a, r2 :: rest⟩).res = .error e) :
    (execute_json decode ⟨some a, r1 :: r2 :: rest⟩).res = .error e := by
  simp [execute_json, execute_json_internal, h1, hre]

/-- The full 401 / successful-refresh / retried-send trajectory. -/
lemma execute_json_retry_eq (T : Type) (decode : Json → Except String T)
    (a : AuthState) (r1 r2 r3 : Response) (j2 : Json) (nb : AuthBody)
    (h1 : r1.status = 401) (h2 : is_success r2.status = true)
    (hb : r2.body = some j2) (hab : authBodyFromJson j2 = .ok nb) :
    execute_json decode ⟨some a, [r1, r2, r3]⟩ =
      ⟨(finish_response decode ⟨some ⟨nb.token, a.account_type⟩, []⟩ r3
          [Event.httpSend SendKind.primary (some ⟨nb.token, a.account_type⟩)]).res,
        (finish_response decode ⟨some ⟨nb.token, a.account_type⟩, []⟩ r3
          [Event.httpSend SendKind.primary (some ⟨nb.token, a.account_type⟩)]).st,
        Event.httpSend SendKind.primary (some a) :: Event.refreshAttempt ::
          Event.httpSend SendKind.refresh (some a) ::
          (finish_response decode ⟨some ⟨nb.token, a.account_type⟩, []⟩ r3
            [Event.httpSend SendKind.primary (some ⟨nb.token, a.account_type⟩)]).events⟩ := by
  rw [execute_json]
  simp only [execute_json_internal, h1]
  rw [refresh_token_success_eq a r2 [r3] j2 nb h2 hb hab]
  simp [execute_json_internal]

/-- C2: an authenticated, refresh-eligible call that receives a 401, whose
refresh succeeds, performs exactly one refresh attempt and exactly one
retried send (two primary sends in total); if the retried send returns 401
again, no second refresh happens and the call fails with the Error
Classifier's result for that second 401 response. -/
theorem c2_single_refresh_retry (T : Type) (decode : Json → Except String T)
    (a : AuthState) (r1 r2 r3 : Response) (j2 : Json) (nb : AuthBody)
    (h1 : r1.status = 401) (h2 : is_success r2.status = true)
    (hb : r2.body = some j2) (hab : authBodyFromJson j2 = .ok nb) :
    (∀ rest : List Response,
      count_refresh_attempts (execute_json decode ⟨some a, r1 :: rest⟩).events = 1) ∧
    count_primary_sends (execute_json decode ⟨some a, [r1, r2, r3]⟩).events = 2 ∧
    (r3.status = 401 →
      (execute_json decode ⟨some a, [r1, r2, r3]⟩).res = .error (api_error 401 r3.body)) := by
  have key := execute_json_retry_eq T decode a r1 r2 r3 j2 nb h1 h2 hb hab
  refine ⟨?_, ?_, ?_⟩
  · intro rest
    exact execute_json_401_one_refresh T decode a r1 rest h1
  · rw [key]
    simp [count_primary_sends, finish_response_events, is_primary_send,
      List.countP_cons]
  · intro h3
    rw [key]
    have hns : is_success r3.status = false := by rw [h3]; rfl
    rw [finish_response_res_fail _ _ _ _ hns, h3]

def refresh_ok_body : Json := .obj [("token", .str "fresh"), ("name", .str "m")]

/-- C2 witness: login-session 401, refresh 200, retried send 401 again. -/
theorem c2_single_refresh_retry_witness :
    count_refresh_attempts
      (execute_json (fun j => .ok j)
        ⟨some ⟨"old", "manager"⟩,
          [⟨401, none⟩, ⟨200, some refresh_ok_body⟩, ⟨401, none⟩]⟩).events = 1 ∧
    count_primary_sends
      (execute_json (fun j => .ok j)
        ⟨some ⟨"old", "manager"⟩,
          [⟨401, none⟩, ⟨200, some refresh_ok_body⟩, ⟨401, none⟩]⟩).events = 2 ∧
    (execute_json (fun j => .ok j)
      ⟨some ⟨"old", "manager"⟩,
        [⟨401, none⟩, ⟨200, some refresh_ok_body⟩, ⟨401, none⟩]⟩).res =
      .error (api_error 401 none) := by
  have h := c2_single_refresh_retry Json (fun j => .ok j) ⟨"old", "manager"⟩
    ⟨401, none⟩ ⟨200, some refresh_ok_body⟩ ⟨401, none⟩ refresh_ok_body
    ⟨"fresh", "m"⟩ rfl rfl rfl rfl
  exact ⟨h.1 [⟨200, some refresh_ok_body⟩, ⟨401, none⟩], h.2.1, h.2.2 rfl⟩

/-- C3: when the refresh sub-call during the 401-retry protocol returns a
non-2xx status other than 401/403, the original call fails with that
response run through the Error Classifier — whose output preserves the
refresh response's status and (for a problem-document body) its title —
and not with the generic `Unauthorized`; a refresh sub-call answering 401
or 403 surfaces `Unauthorized`. -/
theorem c3_refresh_failure_cause (T : Type) (decode : Json → Except String T)
    (a : AuthState) (r1 r2 : Response) (h1 : r1.status = 401) :
    (is_success r2.status = false → ¬(r2.status = 401) → ¬(r2.status = 403) →
      (execute_json decode ⟨some a, [r1, r2]⟩).res = .error (api_error r2.status r2.body)) ∧
    (∀ j problem, r2.body = some j → errorModelFromJson j = some problem →
      api_error r2.status r2.body =
        .ApiProblem r2.status (problem.title.getD "API Error") problem.detail problem) ∧
    ((r2.status = 401 ∨ r2.status = 403) →
      (execute_json decode ⟨some a, [r1, r2]⟩).res = .error .Unauthorized) := by
  refine ⟨?_, ?_, ?_⟩
  · intro hns hn1 hn3
    exact execute_json_refresh_fail T decode a r1 r2 [] h1 _
      (refresh_token_non2xx_res a r2 [] hns hn1 hn3)
  · intro j problem hb hem
    simp [api_error, hb, hem]
  · intro h401
    exact execute_json_refresh_fail T decode a r1 r2 [] h1 _
      (refresh_token_unauthorized_res a r2 [] h401)

def problem_500_body : Json :=
  .obj [("title", .str "refresh failed"), ("detail", .str "backend down")]

/-- The title carried by an `ApiProblem`, if that is the error's shape. -/
def Error.problem_title : Error → Option String
  | .ApiProblem _ title _ _ => some title
  | _ => none

/-- C3 witness: a 500 problem-document refresh response surfaces as
`ApiProblem` with status 500 and title `"refresh failed"`; a 401 refresh
response surfaces as `Unauthorized` (the repository's own integration
tests). -/
theorem c3_refresh_failure_cause_witness :
    (execute_json (fun j => .ok j)
      ⟨some ⟨"old", "manager"⟩, [⟨401, none⟩, ⟨500, some problem_500_body⟩]⟩).res =
      .error (api_error 500 (some problem_500_body)) ∧
    (api_error 500 (some problem_500_body)).problem_title = some "refresh failed" ∧
    (execute_json (fun j => .ok j)
      ⟨some ⟨"old", "manager"⟩, [⟨401, none⟩, ⟨401, none⟩]⟩).res =
      .error .Unauthorized := by
  have h := c3_refresh_failure_cause Json (fun j => .ok j) ⟨"old", "manager"⟩
    ⟨401, none⟩ ⟨500, some problem_500_body⟩ rfl
  have h2 := c3_refresh_failure_cause Json (fun j => .ok j) ⟨"old", "manager"⟩
    ⟨401, none⟩ ⟨401, none⟩ rfl
  exact ⟨h.1 rfl (by decide) (by decide), by rfl, h2.2.2 (Or.inl rfl)⟩

end PatchClient
